import Mathlib

/-!
Verification of the bubble particle system (`src/main.js`): particle data
model, mask/depth sampling, the respawn policy, the per-tick particle
update, and keypoint interaction.  Machine floating-point numbers are
embedded as exact rationals; calls to the host math library
(`Math.sin`, `Math.cos`, `Math.sqrt`, `Math.atan2`) and to the random
generator (`Math.random`) are modelled as explicit oracle inputs, so
every definition stays executable.
-/

namespace ProtoBubbles

/-- Subset of the global `CONFIG` object read by the particle engine. -/
structure Config where
  bubbleCount : ℕ
  bubbleSpeed : ℚ
  bubbleSize : ℚ
  interactionRadius : ℚ
  spawnOnBody : Bool
  invertMask : Bool
  bubbleLifespan : ℚ

/-- One particle: its mesh position/scale, its material opacity, and the
`userData` fields attached in `createBubbles`.  `depth` mirrors
`userData.depth` (always initialised to 0.5 at creation, hence never
undefined). -/
structure Bubble where
  posX : ℚ
  posY : ℚ
  posZ : ℚ
  scale : ℚ
  opacity : ℚ
  velocityMultiplier : ℚ
  initialScale : ℚ
  wobbleSpeed : ℚ
  wobbleOffset : ℚ
  randomOffset : ℚ
  birthTime : ℚ
  lifespanMultiplier : ℚ
  depth : ℚ

/-- Segmentation mask snapshot (`segmentationResult.mask`): dimensions and
an RGBA byte buffer; `data = none` models a snapshot whose pixel buffer
is absent (falsy in the source). -/
structure Mask where
  width : ℕ
  height : ℕ
  data : Option (List ℕ)

/-- Depth snapshot (`depthResult.depth`): dimensions and an RGBA byte
buffer whose red channel encodes raw depth. -/
structure Depth where
  width : ℕ
  height : ℕ
  data : Option (List ℕ)

/-- One pose keypoint as delivered by the pose detector. -/
structure Keypoint where
  x : ℚ
  y : ℚ
  confidence : ℚ

/-- One detected pose: its keypoint list (a fixed 17-point layout in
practice, but the code only indexes defensively). -/
structure Pose where
  keypoints : List Keypoint

/-- Oracle for the host math library: the values returned by `Math.sin`,
`Math.cos`, `Math.sqrt` and `Math.atan2` during this call. -/
structure MathLib where
  sin : ℚ → ℚ
  cos : ℚ → ℚ
  sqrt : ℚ → ℚ
  atan2 : ℚ → ℚ → ℚ

/-- Oracle for the `Math.random()` values consumed by one call to
`respawnBubble`: the stream of `(rx, ry)` pairs drawn in the sampling
loop, then the fallback x draw, the z draw and the lifespan draw. -/
structure RespawnRand where
  draws : List (ℚ × ℚ)
  fallbackX : ℚ
  z : ℚ
  lifespan : ℚ

/-- Byte offset of pixel `(mx, my)` in a stride-4 RGBA buffer of row
width `w`: `(my * w + mx) * 4`. -/
def maskIndex (w mx my : ℕ) : ℕ := (my * w + mx) * 4

/-- Alpha channel of pixel `(mx, my)` in buffer `data` (row width `w`);
an out-of-range read yields `undefined` in the source, which compares
as not-greater-than 127, so the default 0 is faithful. -/
def alphaAt (data : List ℕ) (w mx my : ℕ) : ℕ :=
  data.getD (maskIndex w mx my + 3) 0

/-- The person classification `a > 127` on the alpha channel. -/
def isPerson (data : List ℕ) (w mx my : ℕ) : Bool :=
  decide (127 < alphaAt data w mx my)

/-- Conversion of one random draw `(rx, ry)` to integer mask pixel
coordinates: `mx = floor(rx * w)`, `my = floor(ry * h)`. -/
def pixelOfDraw (w h : ℕ) (rx ry : ℚ) : ℕ × ℕ :=
  ((⌊rx * (w : ℚ)⌋).toNat, (⌊ry * (h : ℚ)⌋).toNat)

/-- Acceptance test for one draw: classify the drawn pixel and accept it
iff `invert ? !isPerson : isPerson`. -/
def acceptDraw (w h : ℕ) (data : List ℕ) (invert : Bool) (rxy : ℚ × ℚ) : Bool :=
  let p := pixelOfDraw w h rxy.1 rxy.2
  let isP := isPerson data w p.1 p.2
  if invert then !isP else isP

/-- The mask sampling loop: walk the draw stream and return the pixel of
the first accepted draw, or `none` when every draw is rejected. -/
def sampleMask (w h : ℕ) (data : List ℕ) (invert : Bool) : List (ℚ × ℚ) → Option (ℕ × ℕ)
  | [] => none
  | rxy :: rest =>
    if acceptDraw w h data invert rxy then some (pixelOfDraw w h rxy.1 rxy.2)
    else sampleMask w h data invert rest

/-- Outcome of the body-spawn sampling phase of `respawnBubble`: `none`
unless `spawnOnBody` is set, a mask snapshot is present, its pixel
buffer is present, and one of the first 200 draws is accepted; on
success also reports the mask dimensions used. -/
def respawnSample (cfg : Config) (seg : Option Mask) (draws : List (ℚ × ℚ)) :
    Option (ℕ × ℕ × ℕ × ℕ) :=
  match seg with
  | some m =>
    if cfg.spawnOnBody then
      match m.data with
      | some d =>
        (sampleMask m.width m.height d cfg.invertMask (draws.take 200)).map
          (fun p => (p.1, p.2, m.width, m.height))
      | none => none
    else none
  | none => none

/-- Byte offset of pixel `(dx, dy)` in the depth buffer (stride 4, row
width `dW`); only the red channel at this offset is read. -/
def depthIndex (dW dx dy : ℕ) : ℕ := (dy * dW + dx) * 4

/-- Rescaling of a mask pixel coordinate into depth-buffer coordinates:
`depthX = floor(mx/w * depthW)`, `depthY = floor(my/h * depthH)`. -/
def depthPixel (w h dW dH mx my : ℕ) : ℕ × ℕ :=
  ((⌊((mx : ℚ) / (w : ℚ)) * (dW : ℚ)⌋).toNat, (⌊((my : ℚ) / (h : ℚ)) * (dH : ℚ)⌋).toNat)

/-- The raw normalised depth read in `respawnBubble`: red channel of the
rescaled depth pixel divided by 255, defaulting to 1/2 when no depth
snapshot (or no pixel buffer) is available. -/
def depthRaw (dep : Option Depth) (mx my w h : ℕ) : ℚ :=
  match dep with
  | some ds =>
    match ds.data with
    | some dd =>
      let p := depthPixel w h ds.width ds.height mx my
      ((dd.getD (depthIndex ds.width p.1 p.2) 0 : ℕ) : ℚ) / 255
    | none => 1/2
  | none => 1/2

/-- The closeness value stored into `userData.depth` on a mask spawn:
`1 - depthRaw` (nearer pixels get larger values). -/
def depthCloseness (dep : Option Depth) (mx my w h : ℕ) : ℚ :=
  1 - depthRaw dep mx my w h

/-- Placement phase of `respawnBubble`: on a successful mask sample,
mirror/flip the pixel into normalised coordinates, map to world space
and store the sampled closeness; otherwise the fallback spawn across
the bottom of the frame. -/
def respawnPlace (cfg : Config) (vw vh : ℚ) (seg : Option Mask) (dep : Option Depth)
    (rnd : RespawnRand) (b : Bubble) : Bubble :=
  match respawnSample cfg seg rnd.draws with
  | some (mx, my, w, h) =>
    { b with
      posX := ((1 - (mx : ℚ) / (w : ℚ)) - 1/2) * vw
      posY := ((1 - (my : ℚ) / (h : ℚ)) - 1/2) * vh
      depth := depthCloseness dep mx my w h }
  | none =>
    { b with
      posX := (rnd.fallbackX - 1/2) * vw
      posY := -vh / 2 - 5 }

/-- The whole of `respawnBubble`: placement, then unconditionally
randomise z, reset the birth time to now, resample the lifespan
multiplier, and reset the material opacity to its base value. -/
def respawnBubble (cfg : Config) (vw vh : ℚ) (seg : Option Mask) (dep : Option Depth)
    (rnd : RespawnRand) (now : ℚ) (b : Bubble) : Bubble :=
  let b1 := respawnPlace cfg vw vh seg dep rnd b
  { b1 with
    posZ := (rnd.z - 1/2) * 15
    birthTime := now
    lifespanMultiplier := 1/2 + rnd.lifespan
    opacity := 1/2 }

/-- The lifespan-expiry test in `animate`: only meaningful when the
global lifespan is positive, and then compares the particle's age with
`bubbleLifespan * lifespanMultiplier`. -/
def lifespanExpired (cfg : Config) (time : ℚ) (b : Bubble) : Bool :=
  decide (0 < cfg.bubbleLifespan) &&
    decide (cfg.bubbleLifespan * b.lifespanMultiplier < time - b.birthTime)

/-- The fade curve of `animate`: base opacity 1/2 until the age fraction
passes 4/5, then a linear ramp down to 0 at fraction 1. -/
def fadeOpacity (f : ℚ) : ℚ :=
  if 4/5 < f then 1/2 * (1 - (f - 4/5) / (1/5)) else 1/2

/-- Movement phase of one `animate` tick for one particle: vertical
drift, sinusoidal x/z wobble, and the depth-driven scale assignment. -/
def moveStep (M : MathLib) (cfg : Config) (time : ℚ) (b : Bubble) : Bubble :=
  { b with
    posY := b.posY + cfg.bubbleSpeed * b.velocityMultiplier
    posX := b.posX + M.sin (time * b.wobbleSpeed + b.wobbleOffset) * (1/100)
    posZ := b.posZ + M.cos (time * b.wobbleSpeed + b.randomOffset) * (1/100)
    scale := b.initialScale * (1/2 + b.depth * (3/2)) }

/-- Fade phase of one `animate` tick: only applies when the global
lifespan is positive. -/
def fadeStep (cfg : Config) (time : ℚ) (b : Bubble) : Bubble :=
  if 0 < cfg.bubbleLifespan then
    { b with
      opacity := fadeOpacity ((time - b.birthTime) / (cfg.bubbleLifespan * b.lifespanMultiplier)) }
  else b

/-- The keypoint interaction routine `interactWithKeypoint`: no-op below
the confidence threshold; inside the interaction radius, push the
particle away along `atan2(dy, dx)` with the linear-falloff force and
boost its scale; outside, relax the scale 10% toward the initial
scale. -/
def interactWithKeypoint (M : MathLib) (cfg : Config) (vw vh videoW videoH : ℚ)
    (b : Bubble) (kp : Keypoint) : Bubble :=
  if kp.confidence < 1/5 then b
  else
    let targetX := ((1 - kp.x / videoW) - 1/2) * vw
    let targetY := ((1 - kp.y / videoH) - 1/2) * vh
    let dx := b.posX - targetX
    let dy := b.posY - targetY
    let dist := M.sqrt (dx * dx + dy * dy)
    if dist < cfg.interactionRadius then
      let force := (cfg.interactionRadius - dist) / cfg.interactionRadius
      let angle := M.atan2 dy dx
      { b with
        posX := b.posX + M.cos angle * force * (4/5)
        posY := b.posY + M.sin angle * force * (4/5)
        scale := b.initialScale * (1 + force * (1/2)) }
    else
      { b with scale := b.scale + (b.initialScale - b.scale) * (1/10) }

/-- Interaction of one particle with one pose: every keypoint with index
in 5..16, then a synthesised torso point averaging both shoulders and
both hips when all four are present with confidence above 1/10. -/
def applyPose (M : MathLib) (cfg : Config) (vw vh videoW videoH : ℚ)
    (b : Bubble) (p : Pose) : Bubble :=
  let b1 := p.keypoints.enum.foldl
    (fun acc ik =>
      if 5 ≤ ik.1 ∧ ik.1 ≤ 16 then
        interactWithKeypoint M cfg vw vh videoW videoH acc ik.2
      else acc) b
  match p.keypoints.get? 5, p.keypoints.get? 6, p.keypoints.get? 11, p.keypoints.get? 12 with
  | some s1, some s2, some h1, some h2 =>
    if 1/10 < s1.confidence ∧ 1/10 < s2.confidence ∧ 1/10 < h1.confidence ∧ 1/10 < h2.confidence then
      interactWithKeypoint M cfg vw vh videoW videoH b1
        ⟨(s1.x + s2.x + h1.x + h2.x) / 4, (s1.y + s2.y + h1.y + h2.y) / 4, 1⟩
    else b1
  | _, _, _, _ => b1

/-- One full `animate` tick for one particle: move, then either the
lifespan-triggered respawn (early return), or fade, the top-of-frame
bounds respawn, and — only in skeleton mode with poses present — the
keypoint interactions. -/
def animateBubble (M : MathLib) (cfg : Config) (vw vh time : ℚ)
    (seg : Option Mask) (dep : Option Depth) (rnd : RespawnRand) (now : ℚ)
    (poses : List Pose) (videoW videoH : ℚ) (b0 : Bubble) : Bubble :=
  let b := moveStep M cfg time b0
  if lifespanExpired cfg time b then respawnBubble cfg vw vh seg dep rnd now b
  else
    let b2 := fadeStep cfg time b
    let b3 := if vh / 2 + 5 < b2.posY then respawnBubble cfg vw vh seg dep rnd now b2 else b2
    if !poses.isEmpty && !cfg.spawnOnBody then
      poses.foldl (applyPose M cfg vw vh videoW videoH) b3
    else b3

/-- Oracle for the `Math.random()` values consumed when `createBubbles`
initialises one particle. -/
structure CreateRand where
  rX : ℚ
  rY : ℚ
  rZ : ℚ
  rScale : ℚ
  rVel : ℚ
  rWobble : ℚ
  rWobbleOff : ℚ
  rRandOff : ℚ
  rBirth : ℚ
  rLifespan : ℚ

/-- Initialisation of particle `i` in `createBubbles` (the `piv`
parameter carries the host value of `Math.PI`). -/
def mkBubble (cfg : Config) (vw vh piv baseTime : ℚ) (i : ℕ) (r : CreateRand) : Bubble :=
  let scale := r.rScale * cfg.bubbleSize + 1/10
  let maxOffset := max cfg.bubbleLifespan 5
  { posX := (r.rX - 1/2) * vw * (3/2)
    posY := (r.rY - 1/2) * vh * (3/2)
    posZ := (r.rZ - 1/2) * 15
    scale := scale
    opacity := 1/2
    velocityMultiplier := r.rVel * (1/10)
    initialScale := scale
    wobbleSpeed := r.rWobble * 3
    wobbleOffset := r.rWobbleOff * piv * 2
    randomOffset := r.rRandOff * 100
    birthTime := baseTime - ((i : ℚ) / (cfg.bubbleCount : ℚ)) * maxOffset
      - r.rBirth * (maxOffset / (cfg.bubbleCount : ℚ))
    lifespanMultiplier := 1/2 + r.rLifespan
    depth := 1/2 }

/-! Helper lemmas: which particle fields each routine leaves untouched. -/

/-- Fields of a particle that survive a keypoint interaction and a pose
fold unchanged: everything except position and scale. -/
def persistEq (a b : Bubble) : Prop :=
  a.birthTime = b.birthTime ∧ a.lifespanMultiplier = b.lifespanMultiplier ∧
  a.opacity = b.opacity ∧ a.depth = b.depth ∧ a.initialScale = b.initialScale ∧
  a.velocityMultiplier = b.velocityMultiplier

lemma persistEq_refl (b : Bubble) : persistEq b b :=
  ⟨rfl, rfl, rfl, rfl, rfl, rfl⟩

lemma persistEq_trans {a b c : Bubble} (h1 : persistEq a b) (h2 : persistEq b c) :
    persistEq a c := by
  obtain ⟨x1, x2, x3, x4, x5, x6⟩ := h1
  obtain ⟨y1, y2, y3, y4, y5, y6⟩ := h2
  exact ⟨x1.trans y1, x2.trans y2, x3.trans y3, x4.trans y4, x5.trans y5, x6.trans y6⟩

lemma interactWithKeypoint_persist (M : MathLib) (cfg : Config) (vw vh videoW videoH : ℚ)
    (b : Bubble) (kp : Keypoint) :
    persistEq (interactWithKeypoint M cfg vw vh videoW videoH b kp) b := by
  unfold interactWithKeypoint
  by_cases h1 : kp.confidence < 1/5
  · simp only [if_pos h1]; exact persistEq_refl b
  · simp only [if_neg h1]
    split_ifs <;> exact ⟨rfl, rfl, rfl, rfl, rfl, rfl⟩

lemma foldl_preserve {α β : Type _} (f : β → α → β) (P : β → Prop)
    (hf : ∀ b a, P b → P (f b a)) : ∀ (l : List α) (b : β), P b → P (l.foldl f b)
  | [], _, hb => hb
  | a :: l, b, hb => foldl_preserve f P hf l (f b a) (hf b a hb)

lemma applyPose_persist (M : MathLib) (cfg : Config) (vw vh videoW videoH : ℚ)
    (b : Bubble) (p : Pose) :
    persistEq (applyPose M cfg vw vh videoW videoH b p) b := by
  unfold applyPose
  have hfold : persistEq
      (p.keypoints.enum.foldl
        (fun acc ik =>
          if 5 ≤ ik.1 ∧ ik.1 ≤ 16 then
            interactWithKeypoint M cfg vw vh videoW videoH acc ik.2
          else acc) b) b := by
    refine foldl_preserve _ (fun x => persistEq x b) ?_ _ _ (persistEq_refl b)
    intro x ik hx
    by_cases hik : 5 ≤ ik.1 ∧ ik.1 ≤ 16
    · simp only [hik, if_true]
      exact persistEq_trans (interactWithKeypoint_persist M cfg vw vh videoW videoH x ik.2) hx
    · simpa [hik] using hx
  cases h5 : p.keypoints.get? 5 <;> cases h6 : p.keypoints.get? 6 <;>
    cases h11 : p.keypoints.get? 11 <;> cases h12 : p.keypoints.get? 12 <;>
    dsimp only <;> (try split_ifs) <;>
    first
      | exact persistEq_trans (interactWithKeypoint_persist M cfg vw vh videoW videoH _ _) hfold
      | exact hfold

lemma posesFoldl_persist (M : MathLib) (cfg : Config) (vw vh videoW videoH : ℚ)
    (b : Bubble) (poses : List Pose) :
    persistEq (poses.foldl (applyPose M cfg vw vh videoW videoH) b) b := by
  refine foldl_preserve _ (fun x => persistEq x b) ?_ _ _ (persistEq_refl b)
  intro x p hx
  exact persistEq_trans (applyPose_persist M cfg vw vh videoW videoH x p) hx

lemma respawnBubble_post (cfg : Config) (vw vh now : ℚ) (seg : Option Mask)
    (dep : Option Depth) (rnd : RespawnRand) (b : Bubble) :
    (respawnBubble cfg vw vh seg dep rnd now b).posZ = (rnd.z - 1/2) * 15 ∧
    (respawnBubble cfg vw vh seg dep rnd now b).birthTime = now ∧
    (respawnBubble cfg vw vh seg dep rnd now b).lifespanMultiplier = 1/2 + rnd.lifespan ∧
    (respawnBubble cfg vw vh seg dep rnd now b).opacity = 1/2 :=
  ⟨rfl, rfl, rfl, rfl⟩

lemma respawnBubble_scale (cfg : Config) (vw vh now : ℚ) (seg : Option Mask)
    (dep : Option Depth) (rnd : RespawnRand) (b : Bubble) :
    (respawnBubble cfg vw vh seg dep rnd now b).scale = b.scale ∧
    (respawnBubble cfg vw vh seg dep rnd now b).initialScale = b.initialScale ∧
    (respawnBubble cfg vw vh seg dep rnd now b).velocityMultiplier = b.velocityMultiplier := by
  unfold respawnBubble respawnPlace
  cases h : respawnSample cfg seg rnd.draws with
  | none => exact ⟨rfl, rfl, rfl⟩
  | some q =>
    obtain ⟨mx, my, w, h⟩ := q
    exact ⟨rfl, rfl, rfl⟩

lemma respawnBubble_posXY_of_none (cfg : Config) (vw vh now : ℚ) (seg : Option Mask)
    (dep : Option Depth) (rnd : RespawnRand) (b : Bubble)
    (h : respawnSample cfg seg rnd.draws = none) :
    (respawnBubble cfg vw vh seg dep rnd now b).posX = (rnd.fallbackX - 1/2) * vw ∧
    (respawnBubble cfg vw vh seg dep rnd now b).posY = -vh / 2 - 5 ∧
    (respawnBubble cfg vw vh seg dep rnd now b).depth = b.depth := by
  unfold respawnBubble respawnPlace
  rw [h]
  exact ⟨rfl, rfl, rfl⟩

lemma respawnBubble_posXY_of_some (cfg : Config) (vw vh now : ℚ) (seg : Option Mask)
    (dep : Option Depth) (rnd : RespawnRand) (b : Bubble) (mx my w h : ℕ)
    (hs : respawnSample cfg seg rnd.draws = some (mx, my, w, h)) :
    (respawnBubble cfg vw vh seg dep rnd now b).posX = ((1 - (mx : ℚ) / (w : ℚ)) - 1/2) * vw ∧
    (respawnBubble cfg vw vh seg dep rnd now b).posY = ((1 - (my : ℚ) / (h : ℚ)) - 1/2) * vh ∧
    (respawnBubble cfg vw vh seg dep rnd now b).depth = depthCloseness dep mx my w h := by
  unfold respawnBubble respawnPlace
  rw [hs]
  exact ⟨rfl, rfl, rfl⟩

/-! Claim theorems. -/

/-- C3: every respawn, on both the mask-derived and the fallback branch,
ends by randomising `position.z` uniformly in `[-7.5, 7.5)`, resetting
`birthTime` to the current time, resampling `lifespanMultiplier` in
`[0.5, 1.5)`, and resetting the material opacity to the base value 1/2. -/
theorem c3_respawn_postcondition (cfg : Config) (vw vh now : ℚ) (seg : Option Mask)
    (dep : Option Depth) (rnd : RespawnRand) (b : Bubble)
    (hz0 : 0 ≤ rnd.z) (hz1 : rnd.z < 1)
    (hl0 : 0 ≤ rnd.lifespan) (hl1 : rnd.lifespan < 1) :
    (respawnBubble cfg vw vh seg dep rnd now b).posZ = (rnd.z - 1/2) * 15 ∧
    -(15/2) ≤ (respawnBubble cfg vw vh seg dep rnd now b).posZ ∧
    (respawnBubble cfg vw vh seg dep rnd now b).posZ < 15/2 ∧
    (respawnBubble cfg vw vh seg dep rnd now b).birthTime = now ∧
    (respawnBubble cfg vw vh seg dep rnd now b).lifespanMultiplier = 1/2 + rnd.lifespan ∧
    1/2 ≤ (respawnBubble cfg vw vh seg dep rnd now b).lifespanMultiplier ∧
    (respawnBubble cfg vw vh seg dep rnd now b).lifespanMultiplier < 3/2 ∧
    (respawnBubble cfg vw vh seg dep rnd now b).opacity = 1/2 := by
  obtain ⟨hz, hb, hm, ho⟩ := respawnBubble_post cfg vw vh now seg dep rnd b
  refine ⟨hz, ?_, ?_, hb, hm, ?_, ?_, ho⟩
  · rw [hz]; linarith
  · rw [hz]; linarith
  · rw [hm]; linarith
  · rw [hm]; linarith

/-- Concrete configuration used by the witnesses. -/
def cfgW : Config := ⟨400, 5/2, 3/5, 4, true, false, 8⟩

/-- Concrete particle used by the witnesses. -/
def bW : Bubble := ⟨0, 0, 0, 1, 1/2, 0, 1, 0, 0, 0, 0, 1, 1/2⟩

/-- Concrete respawn randomness used by the witnesses. -/
def rndW : RespawnRand := ⟨[], 0, 0, 0⟩

/-- Witness for C3 at a concrete input. -/
theorem c3_respawn_postcondition_witness :
    (respawnBubble cfgW 16 9 none none rndW 0 bW).posZ = (rndW.z - 1/2) * 15 ∧
    -(15/2) ≤ (respawnBubble cfgW 16 9 none none rndW 0 bW).posZ ∧
    (respawnBubble cfgW 16 9 none none rndW 0 bW).posZ < 15/2 ∧
    (respawnBubble cfgW 16 9 none none rndW 0 bW).birthTime = 0 ∧
    (respawnBubble cfgW 16 9 none none rndW 0 bW).lifespanMultiplier = 1/2 + rndW.lifespan ∧
    1/2 ≤ (respawnBubble cfgW 16 9 none none rndW 0 bW).lifespanMultiplier ∧
    (respawnBubble cfgW 16 9 none none rndW 0 bW).lifespanMultiplier < 3/2 ∧
    (respawnBubble cfgW 16 9 none none rndW 0 bW).opacity = 1/2 :=
  c3_respawn_postcondition cfgW 16 9 0 none none rndW bW
    (by norm_num [rndW]) (by norm_num [rndW]) (by norm_num [rndW]) (by norm_num [rndW])

/-- C2: whenever the spawn mode is not on-body, or no mask snapshot with
pixel data is available, or all 200 sampling attempts were rejected, the
respawn takes the fallback branch, which sets `position.x` uniformly at
random across the full visible width and `position.y` to exactly
`-visibleHeight/2 - 5`; in particular with no mask snapshot published
every respawn yields that y value. -/
theorem c2_fallback_spawn (cfg : Config) (vw vh now : ℚ) (seg : Option Mask)
    (dep : Option Depth) (rnd : RespawnRand) (b : Bubble) (m : Mask)
    (hfx0 : 0 ≤ rnd.fallbackX) (hfx1 : rnd.fallbackX < 1) (hvw : 0 < vw) :
    (respawnSample cfg seg rnd.draws = none →
      (respawnBubble cfg vw vh seg dep rnd now b).posX = (rnd.fallbackX - 1/2) * vw ∧
      (respawnBubble cfg vw vh seg dep rnd now b).posY = -vh / 2 - 5 ∧
      -(vw / 2) ≤ (respawnBubble cfg vw vh seg dep rnd now b).posX ∧
      (respawnBubble cfg vw vh seg dep rnd now b).posX < vw / 2) ∧
    (cfg.spawnOnBody = false → respawnSample cfg seg rnd.draws = none) ∧
    (seg = none → respawnSample cfg seg rnd.draws = none) ∧
    (m.data = none → respawnSample cfg (some m) rnd.draws = none) ∧
    (∀ d : List ℕ, m.data = some d →
      sampleMask m.width m.height d cfg.invertMask (rnd.draws.take 200) = none →
      respawnSample cfg (some m) rnd.draws = none) ∧
    (respawnBubble cfg vw vh none dep rnd now b).posY = -vh / 2 - 5 := by
  refine ⟨?_, ?_, ?_, ?_, ?_, ?_⟩
  · intro h
    obtain ⟨hx, hy, -⟩ := respawnBubble_posXY_of_none cfg vw vh now seg dep rnd b h
    refine ⟨hx, hy, ?_, ?_⟩ <;> rw [hx] <;> nlinarith
  · intro h
    unfold respawnSample
    cases seg with
    | none => rfl
    | some m' => simp [h]
  · intro h
    subst h
    rfl
  · intro h
    unfold respawnSample
    dsimp only
    rw [h]
    split_ifs <;> rfl
  · intro d hd hs
    unfold respawnSample
    dsimp only
    rw [hd]
    dsimp only
    rw [hs]
    split_ifs <;> rfl
  · exact (respawnBubble_posXY_of_none cfg vw vh now none dep rnd b rfl).2.1

/-- Witness for C2 at a concrete input. -/
theorem c2_fallback_spawn_witness :
    (respawnSample cfgW none rndW.draws = none →
      (respawnBubble cfgW 16 9 none none rndW 0 bW).posX = (rndW.fallbackX - 1/2) * 16 ∧
      (respawnBubble cfgW 16 9 none none rndW 0 bW).posY = -(9 : ℚ) / 2 - 5 ∧
      -((16 : ℚ) / 2) ≤ (respawnBubble cfgW 16 9 none none rndW 0 bW).posX ∧
      (respawnBubble cfgW 16 9 none none rndW 0 bW).posX < 16 / 2) ∧
    (cfgW.spawnOnBody = false → respawnSample cfgW none rndW.draws = none) ∧
    ((none : Option Mask) = none → respawnSample cfgW none rndW.draws = none) ∧
    ((⟨8, 8, none⟩ : Mask).data = none → respawnSample cfgW (some ⟨8, 8, none⟩) rndW.draws = none) ∧
    (∀ d : List ℕ, (⟨8, 8, none⟩ : Mask).data = some d →
      sampleMask 8 8 d cfgW.invertMask (rndW.draws.take 200) = none →
      respawnSample cfgW (some ⟨8, 8, none⟩) rndW.draws = none) ∧
    (respawnBubble cfgW 16 9 none none rndW 0 bW).posY = -(9 : ℚ) / 2 - 5 :=
  c2_fallback_spawn cfgW 16 9 0 none none rndW bW ⟨8, 8, none⟩
    (by norm_num [rndW]) (by norm_num [rndW]) (by norm_num)

/-! Bounds for the floor-based pixel conversions, and byte-buffer reads. -/

lemma pixelOfDraw_lt (w h : ℕ) (rx ry : ℚ) (hw : 1 ≤ w) (hh : 1 ≤ h)
    (hrx0 : 0 ≤ rx) (hrx1 : rx < 1) (hry0 : 0 ≤ ry) (hry1 : ry < 1) :
    (pixelOfDraw w h rx ry).1 < w ∧ (pixelOfDraw w h rx ry).2 < h := by
  have hw' : (0 : ℚ) < w := by
    have : (1 : ℚ) ≤ w := by exact_mod_cast hw
    linarith
  have hh' : (0 : ℚ) < h := by
    have : (1 : ℚ) ≤ h := by exact_mod_cast hh
    linarith
  have hfl1 : ⌊rx * (w : ℚ)⌋ < (w : ℤ) := by
    rw [Int.floor_lt]
    push_cast
    nlinarith
  have hge1 : 0 ≤ ⌊rx * (w : ℚ)⌋ := Int.floor_nonneg.mpr (by positivity)
  have hfl2 : ⌊ry * (h : ℚ)⌋ < (h : ℤ) := by
    rw [Int.floor_lt]
    push_cast
    nlinarith
  have hge2 : 0 ≤ ⌊ry * (h : ℚ)⌋ := Int.floor_nonneg.mpr (by positivity)
  unfold pixelOfDraw
  constructor <;> simp only [] <;> omega

lemma depthPixel_lt (w h dW dH mx my : ℕ) (hmx : mx < w) (hmy : my < h)
    (hdW : 1 ≤ dW) (hdH : 1 ≤ dH) :
    (depthPixel w h dW dH mx my).1 < dW ∧ (depthPixel w h dW dH mx my).2 < dH := by
  have hw' : (0 : ℚ) < w := by
    have : (0 : ℕ) < w := by omega
    exact_mod_cast this
  have hh' : (0 : ℚ) < h := by
    have : (0 : ℕ) < h := by omega
    exact_mod_cast this
  have hdW' : (0 : ℚ) < dW := by
    have : (0 : ℕ) < dW := by omega
    exact_mod_cast this
  have hdH' : (0 : ℚ) < dH := by
    have : (0 : ℕ) < dH := by omega
    exact_mod_cast this
  have hx1 : (mx : ℚ) / w < 1 := by
    rw [div_lt_one hw']
    exact_mod_cast hmx
  have hy1 : (my : ℚ) / h < 1 := by
    rw [div_lt_one hh']
    exact_mod_cast hmy
  have hx0 : (0 : ℚ) ≤ (mx : ℚ) / w := by positivity
  have hy0 : (0 : ℚ) ≤ (my : ℚ) / h := by positivity
  have hfl1 : ⌊((mx : ℚ) / w) * (dW : ℚ)⌋ < (dW : ℤ) := by
    rw [Int.floor_lt]
    push_cast
    nlinarith
  have hge1 : 0 ≤ ⌊((mx : ℚ) / w) * (dW : ℚ)⌋ := Int.floor_nonneg.mpr (by positivity)
  have hfl2 : ⌊((my : ℚ) / h) * (dH : ℚ)⌋ < (dH : ℤ) := by
    rw [Int.floor_lt]
    push_cast
    nlinarith
  have hge2 : 0 ≤ ⌊((my : ℚ) / h) * (dH : ℚ)⌋ := Int.floor_nonneg.mpr (by positivity)
  unfold depthPixel
  constructor <;> simp only [] <;> omega

lemma getD_le_of_forall {l : List ℕ} {n : ℕ} (h : ∀ x ∈ l, x ≤ 255) :
    l.getD n 0 ≤ 255 := by
  rcases lt_or_ge n l.length with hn | hn
  · have hm : l.getD n 0 ∈ l := by
      rw [List.getD_eq_getElem l 0 hn]
      exact List.getElem_mem hn
    exact h _ hm
  · rw [List.getD_eq_default l 0 hn]
    omega

/-- C4: for every depth snapshot with a pixel buffer, and any buffer
contents, the sampled closeness equals `1 - red/255` at the mask
coordinate rescaled into depth space by flooring
`(mx/w)*depthW`, `(my/h)*depthH` (the rescaled pixel being strictly in
range); consequently a depth buffer with red channel everywhere 255
yields closeness 0 for every in-range mask coordinate; with no depth
snapshot, or one without pixel data, the stored closeness is the
neutral default 1/2. -/
theorem c4_depth_sampler (ds : Depth) (dd : List ℕ) (mx my w h : ℕ)
    (hdata : ds.data = some dd)
    (hmx : mx < w) (hmy : my < h) (hdW : 1 ≤ ds.width) (hdH : 1 ≤ ds.height) :
    (depthCloseness (some ds) mx my w h =
      1 - ((dd.getD (depthIndex ds.width (depthPixel w h ds.width ds.height mx my).1
        (depthPixel w h ds.width ds.height mx my).2) 0 : ℕ) : ℚ) / 255) ∧
    ((depthPixel w h ds.width ds.height mx my).1 < ds.width ∧
      (depthPixel w h ds.width ds.height mx my).2 < ds.height) ∧
    ((∀ dx dy : ℕ, dx < ds.width → dy < ds.height →
        dd.getD (depthIndex ds.width dx dy) 0 = 255) →
      depthCloseness (some ds) mx my w h = 0) ∧
    depthCloseness none mx my w h = 1/2 ∧
    (∀ ds2 : Depth, ds2.data = none → depthCloseness (some ds2) mx my w h = 1/2) := by
  obtain ⟨hpx, hpy⟩ := depthPixel_lt w h ds.width ds.height mx my hmx hmy hdW hdH
  have hform : depthCloseness (some ds) mx my w h =
      1 - ((dd.getD (depthIndex ds.width (depthPixel w h ds.width ds.height mx my).1
        (depthPixel w h ds.width ds.height mx my).2) 0 : ℕ) : ℚ) / 255 := by
    unfold depthCloseness depthRaw
    dsimp only
    rw [hdata]
  refine ⟨hform, ⟨hpx, hpy⟩, ?_, ?_, ?_⟩
  · intro h255
    rw [hform, h255 _ _ hpx hpy]
    norm_num
  · norm_num [depthCloseness, depthRaw]
  · intro ds2 h2
    unfold depthCloseness depthRaw
    dsimp only
    rw [h2]
    norm_num

/-- Concrete 2x2 depth snapshot with four distinct red values, used by
the C4 witness. -/
def dsW : Depth :=
  ⟨2, 2, some [51, 0, 0, 0, 102, 0, 0, 0, 153, 0, 0, 0, 204, 0, 0, 0]⟩

/-- Witness for C4 at a concrete input. -/
theorem c4_depth_sampler_witness :
    (depthCloseness (some dsW) 0 0 1 1 =
      1 - ((([51, 0, 0, 0, 102, 0, 0, 0, 153, 0, 0, 0, 204, 0, 0, 0] : List ℕ).getD
        (depthIndex dsW.width (depthPixel 1 1 dsW.width dsW.height 0 0).1
          (depthPixel 1 1 dsW.width dsW.height 0 0).2) 0 : ℕ) : ℚ) / 255) ∧
    ((depthPixel 1 1 dsW.width dsW.height 0 0).1 < dsW.width ∧
      (depthPixel 1 1 dsW.width dsW.height 0 0).2 < dsW.height) ∧
    ((∀ dx dy : ℕ, dx < dsW.width → dy < dsW.height →
        ([51, 0, 0, 0, 102, 0, 0, 0, 153, 0, 0, 0, 204, 0, 0, 0] : List ℕ).getD
          (depthIndex dsW.width dx dy) 0 = 255) →
      depthCloseness (some dsW) 0 0 1 1 = 0) ∧
    depthCloseness none 0 0 1 1 = 1/2 ∧
    (∀ ds2 : Depth, ds2.data = none → depthCloseness (some ds2) 0 0 1 1 = 1/2) :=
  c4_depth_sampler dsW [51, 0, 0, 0, 102, 0, 0, 0, 153, 0, 0, 0, 204, 0, 0, 0] 0 0 1 1 rfl
    (by norm_num) (by norm_num) (by norm_num [dsW]) (by norm_num [dsW])

lemma fadeStep_fields (cfg : Config) (time : ℚ) (b : Bubble) :
    (fadeStep cfg time b).posX = b.posX ∧ (fadeStep cfg time b).posY = b.posY ∧
    (fadeStep cfg time b).posZ = b.posZ ∧ (fadeStep cfg time b).scale = b.scale ∧
    (fadeStep cfg time b).birthTime = b.birthTime ∧
    (fadeStep cfg time b).lifespanMultiplier = b.lifespanMultiplier ∧
    (fadeStep cfg time b).depth = b.depth ∧
    (fadeStep cfg time b).initialScale = b.initialScale := by
  unfold fadeStep
  split_ifs <;> exact ⟨rfl, rfl, rfl, rfl, rfl, rfl, rfl, rfl⟩

/-- C8: each tick the depth-driven scale assignment sets the particle's
scale to `initialScale * (0.5 + depthValue * 1.5)`, and (in body-spawn
mode, or with no poses, so that no keypoint interaction follows) that is
the particle's scale at the end of the tick; `depthValue = 1` yields
twice the initial scale and `depthValue = 0` half of it. -/
theorem c8_depth_scale (M : MathLib) (cfg : Config) (vw vh time : ℚ)
    (seg : Option Mask) (dep : Option Depth) (rnd : RespawnRand) (now : ℚ)
    (poses : List Pose) (videoW videoH : ℚ) (b0 : Bubble)
    (hni : cfg.spawnOnBody = true ∨ poses = []) :
    (moveStep M cfg time b0).scale = b0.initialScale * (1/2 + b0.depth * (3/2)) ∧
    (animateBubble M cfg vw vh time seg dep rnd now poses videoW videoH b0).scale =
      b0.initialScale * (1/2 + b0.depth * (3/2)) ∧
    (b0.depth = 1 →
      (animateBubble M cfg vw vh time seg dep rnd now poses videoW videoH b0).scale =
        b0.initialScale * 2) ∧
    (b0.depth = 0 →
      (animateBubble M cfg vw vh time seg dep rnd now poses videoW videoH b0).scale =
        b0.initialScale * (1/2)) := by
  have hcond : (!poses.isEmpty && !cfg.spawnOnBody) = false := by
    rcases hni with h | h
    · simp [h]
    · simp [h]
  have hmain : (animateBubble M cfg vw vh time seg dep rnd now poses videoW videoH b0).scale =
      b0.initialScale * (1/2 + b0.depth * (3/2)) := by
    unfold animateBubble
    dsimp only
    rw [hcond]
    by_cases h1 : lifespanExpired cfg time (moveStep M cfg time b0) = true
    · rw [if_pos h1]
      exact (respawnBubble_scale cfg vw vh now seg dep rnd _).1
    · rw [if_neg h1]
      have hff : ¬((false : Bool) = true) := by simp
      rw [if_neg hff]
      split_ifs with h2
      · rw [(respawnBubble_scale cfg vw vh now seg dep rnd _).1]
        exact (fadeStep_fields cfg time (moveStep M cfg time b0)).2.2.2.1
      · exact (fadeStep_fields cfg time (moveStep M cfg time b0)).2.2.2.1
  refine ⟨rfl, hmain, ?_, ?_⟩
  · intro hd
    rw [hmain, hd]
    ring
  · intro hd
    rw [hmain, hd]
    ring

/-- Witness for C8 at a concrete input. -/
theorem c8_depth_scale_witness :
    (moveStep ⟨fun _ => 0, fun _ => 0, fun _ => 0, fun _ _ => 0⟩ cfgW 0 bW).scale =
      bW.initialScale * (1/2 + bW.depth * (3/2)) ∧
    (animateBubble ⟨fun _ => 0, fun _ => 0, fun _ => 0, fun _ _ => 0⟩ cfgW 16 9 0
      none none rndW 0 [] 640 480 bW).scale = bW.initialScale * (1/2 + bW.depth * (3/2)) ∧
    (bW.depth = 1 →
      (animateBubble ⟨fun _ => 0, fun _ => 0, fun _ => 0, fun _ _ => 0⟩ cfgW 16 9 0
        none none rndW 0 [] 640 480 bW).scale = bW.initialScale * 2) ∧
    (bW.depth = 0 →
      (animateBubble ⟨fun _ => 0, fun _ => 0, fun _ => 0, fun _ _ => 0⟩ cfgW 16 9 0
        none none rndW 0 [] 640 480 bW).scale = bW.initialScale * (1/2)) :=
  c8_depth_scale ⟨fun _ => 0, fun _ => 0, fun _ => 0, fun _ _ => 0⟩ cfgW 16 9 0
    none none rndW 0 [] 640 480 bW (Or.inl rfl)

/-- C10: for a mask of width and height at least 1 with an RGBA buffer of
length at least `4*w*h`, every alpha read of the sampling loop uses an
index strictly inside the buffer, since each draw in `[0,1)²` floors to
a pixel with `mx < w` and `my < h`; likewise the depth read stays inside
a depth buffer of length at least `4*depthW*depthH`. -/
theorem c10_in_bounds (w h dW dH : ℕ) (data ddata : List ℕ) (rx ry : ℚ)
    (hw : 1 ≤ w) (hh : 1 ≤ h) (hlen : 4 * w * h ≤ data.length)
    (hrx0 : 0 ≤ rx) (hrx1 : rx < 1) (hry0 : 0 ≤ ry) (hry1 : ry < 1) :
    (pixelOfDraw w h rx ry).1 < w ∧ (pixelOfDraw w h rx ry).2 < h ∧
    maskIndex w (pixelOfDraw w h rx ry).1 (pixelOfDraw w h rx ry).2 + 3 < data.length ∧
    (1 ≤ dW → 1 ≤ dH → 4 * dW * dH ≤ ddata.length →
      depthIndex dW
        (depthPixel w h dW dH (pixelOfDraw w h rx ry).1 (pixelOfDraw w h rx ry).2).1
        (depthPixel w h dW dH (pixelOfDraw w h rx ry).1 (pixelOfDraw w h rx ry).2).2 <
        ddata.length) := by
  obtain ⟨hmx, hmy⟩ := pixelOfDraw_lt w h rx ry hw hh hrx0 hrx1 hry0 hry1
  set mx := (pixelOfDraw w h rx ry).1 with hmxdef
  set my := (pixelOfDraw w h rx ry).2 with hmydef
  refine ⟨hmx, hmy, ?_, ?_⟩
  · have hm1 : my * w + mx < w * h := by
      calc my * w + mx < my * w + w := by omega
        _ = (my + 1) * w := by ring
        _ ≤ h * w := Nat.mul_le_mul_right w hmy
        _ = w * h := Nat.mul_comm h w
    have hlen' : 4 * (w * h) ≤ data.length := by rw [← mul_assoc]; exact hlen
    unfold maskIndex
    omega
  · intro hdW hdH hdlen
    obtain ⟨hdx, hdy⟩ := depthPixel_lt w h dW dH mx my hmx hmy hdW hdH
    set dx := (depthPixel w h dW dH mx my).1
    set dy := (depthPixel w h dW dH mx my).2
    have hm1 : dy * dW + dx < dW * dH := by
      calc dy * dW + dx < dy * dW + dW := by omega
        _ = (dy + 1) * dW := by ring
        _ ≤ dH * dW := Nat.mul_le_mul_right dW hdy
        _ = dW * dH := Nat.mul_comm dH dW
    have hdlen' : 4 * (dW * dH) ≤ ddata.length := by rw [← mul_assoc]; exact hdlen
    unfold depthIndex
    omega

/-- Witness for C10 at a concrete input. -/
theorem c10_in_bounds_witness :
    (pixelOfDraw 8 8 0 0).1 < 8 ∧ (pixelOfDraw 8 8 0 0).2 < 8 ∧
    maskIndex 8 (pixelOfDraw 8 8 0 0).1 (pixelOfDraw 8 8 0 0).2 + 3 <
      (List.replicate 256 (0 : ℕ)).length ∧
    (1 ≤ 2 → 1 ≤ 2 → 4 * 2 * 2 ≤ (List.replicate 16 (0 : ℕ)).length →
      depthIndex 2 (depthPixel 8 8 2 2 (pixelOfDraw 8 8 0 0).1 (pixelOfDraw 8 8 0 0).2).1
        (depthPixel 8 8 2 2 (pixelOfDraw 8 8 0 0).1 (pixelOfDraw 8 8 0 0).2).2 <
        (List.replicate 16 (0 : ℕ)).length) :=
  c10_in_bounds 8 8 2 2 (List.replicate 256 0) (List.replicate 16 0) 0 0
    (by norm_num) (by norm_num) (by rw [List.length_replicate]) (by norm_num)
    (by norm_num) (by norm_num) (by norm_num)

lemma moveStep_fields (M : MathLib) (cfg : Config) (time : ℚ) (b : Bubble) :
    (moveStep M cfg time b).posY = b.posY + cfg.bubbleSpeed * b.velocityMultiplier ∧
    (moveStep M cfg time b).birthTime = b.birthTime ∧
    (moveStep M cfg time b).lifespanMultiplier = b.lifespanMultiplier ∧
    (moveStep M cfg time b).opacity = b.opacity ∧
    (moveStep M cfg time b).depth = b.depth ∧
    (moveStep M cfg time b).initialScale = b.initialScale :=
  ⟨rfl, rfl, rfl, rfl, rfl, rfl⟩

/-- Zeroed math-library oracle used by the witnesses. -/
def mathW : MathLib := ⟨fun _ => 0, fun _ => 0, fun _ => 0, fun _ _ => 0⟩

/-- C7: for a particle that does not respawn this tick (positive global
lifespan, age within the effective lifespan, and still inside the top
bound after drifting), the opacity written this tick is `fadeOpacity`
of the age fraction f: exactly 1/2 for `f ≤ 4/5`, the linear ramp
`1/2 * (1 - (f - 4/5)/(1/5))` for `f > 4/5` (non-increasing there), and
exactly 0 at `f = 1`. -/
theorem c7_fade (M : MathLib) (cfg : Config) (vw vh time : ℚ)
    (seg : Option Mask) (dep : Option Depth) (rnd : RespawnRand) (now : ℚ)
    (poses : List Pose) (videoW videoH : ℚ) (b : Bubble)
    (hL : 0 < cfg.bubbleLifespan)
    (hage : time - b.birthTime ≤ cfg.bubbleLifespan * b.lifespanMultiplier)
    (hy : b.posY + cfg.bubbleSpeed * b.velocityMultiplier ≤ vh / 2 + 5) :
    (animateBubble M cfg vw vh time seg dep rnd now poses videoW videoH b).opacity =
      fadeOpacity ((time - b.birthTime) / (cfg.bubbleLifespan * b.lifespanMultiplier)) ∧
    (∀ f : ℚ, f ≤ 4/5 → fadeOpacity f = 1/2) ∧
    (∀ f : ℚ, 4/5 < f → fadeOpacity f = 1/2 * (1 - (f - 4/5) / (1/5))) ∧
    fadeOpacity 1 = 0 ∧
    (∀ f1 f2 : ℚ, 4/5 < f1 → f1 ≤ f2 → fadeOpacity f2 ≤ fadeOpacity f1) := by
  have hbm : (moveStep M cfg time b).birthTime = b.birthTime := rfl
  have hmm : (moveStep M cfg time b).lifespanMultiplier = b.lifespanMultiplier := rfl
  have hexp : ¬ (lifespanExpired cfg time (moveStep M cfg time b) = true) := by
    unfold lifespanExpired
    rw [hbm, hmm]
    simp only [Bool.and_eq_true, decide_eq_true_eq, not_and]
    intro _
    linarith
  have hfade : (fadeStep cfg time (moveStep M cfg time b)).opacity =
      fadeOpacity ((time - b.birthTime) / (cfg.bubbleLifespan * b.lifespanMultiplier)) := by
    unfold fadeStep
    rw [if_pos hL]
    rfl
  have hpos : (fadeStep cfg time (moveStep M cfg time b)).posY =
      b.posY + cfg.bubbleSpeed * b.velocityMultiplier :=
    ((fadeStep_fields cfg time (moveStep M cfg time b)).2.1).trans
      (moveStep_fields M cfg time b).1
  have hmain : (animateBubble M cfg vw vh time seg dep rnd now poses videoW videoH b).opacity =
      fadeOpacity ((time - b.birthTime) / (cfg.bubbleLifespan * b.lifespanMultiplier)) := by
    unfold animateBubble
    dsimp only
    rw [if_neg hexp]
    have hbif : (if vh / 2 + 5 < (fadeStep cfg time (moveStep M cfg time b)).posY
        then respawnBubble cfg vw vh seg dep rnd now (fadeStep cfg time (moveStep M cfg time b))
        else fadeStep cfg time (moveStep M cfg time b)) =
          fadeStep cfg time (moveStep M cfg time b) := by
      rw [if_neg (by rw [hpos]; exact not_lt.mpr hy)]
    rw [hbif]
    split_ifs with h3
    · exact ((posesFoldl_persist M cfg vw vh videoW videoH _ poses).2.2.1).trans hfade
    · exact hfade
  refine ⟨hmain, ?_, ?_, ?_, ?_⟩
  · intro f hf
    unfold fadeOpacity
    rw [if_neg (not_lt.mpr hf)]
  · intro f hf
    unfold fadeOpacity
    rw [if_pos hf]
  · norm_num [fadeOpacity]
  · intro f1 f2 h1 h2
    unfold fadeOpacity
    rw [if_pos h1, if_pos (lt_of_lt_of_le h1 h2)]
    linarith

/-- Witness for C7 at a concrete input. -/
theorem c7_fade_witness :
    (animateBubble mathW cfgW 16 9 0 none none rndW 0 [] 640 480 bW).opacity =
      fadeOpacity ((0 - bW.birthTime) / (cfgW.bubbleLifespan * bW.lifespanMultiplier)) ∧
    (∀ f : ℚ, f ≤ 4/5 → fadeOpacity f = 1/2) ∧
    (∀ f : ℚ, 4/5 < f → fadeOpacity f = 1/2 * (1 - (f - 4/5) / (1/5))) ∧
    fadeOpacity 1 = 0 ∧
    (∀ f1 f2 : ℚ, 4/5 < f1 → f1 ≤ f2 → fadeOpacity f2 ≤ fadeOpacity f1) :=
  c7_fade mathW cfgW 16 9 0 none none rndW 0 [] 640 480 bW
    (by norm_num [cfgW]) (by norm_num [cfgW, bW]) (by norm_num [cfgW, bW])

/-- A depth snapshot whose bytes are all in the 0..255 range (as a real
`Uint8ClampedArray` buffer is). -/
def depthBytesLe (dep : Option Depth) : Prop :=
  ∀ ds : Depth, dep = some ds → ∀ l : List ℕ, ds.data = some l → ∀ x ∈ l, x ≤ 255

lemma depthRaw_eq_some (ds : Depth) (l : List ℕ) (hd : ds.data = some l) (mx my w h : ℕ) :
    depthRaw (some ds) mx my w h =
      ((l.getD (depthIndex ds.width (depthPixel w h ds.width ds.height mx my).1
        (depthPixel w h ds.width ds.height mx my).2) 0 : ℕ) : ℚ) / 255 := by
  unfold depthRaw
  dsimp only
  rw [hd]

lemma depthCloseness_range (dep : Option Depth) (mx my w h : ℕ)
    (hb : depthBytesLe dep) :
    0 ≤ depthCloseness dep mx my w h ∧ depthCloseness dep mx my w h ≤ 1 := by
  cases dep with
  | none => norm_num [depthCloseness, depthRaw]
  | some ds =>
    cases hd : ds.data with
    | none =>
      unfold depthCloseness depthRaw
      dsimp only
      rw [hd]
      norm_num
    | some l =>
      unfold depthCloseness
      rw [depthRaw_eq_some ds l hd]
      have hbyte : l.getD (depthIndex ds.width (depthPixel w h ds.width ds.height mx my).1
          (depthPixel w h ds.width ds.height mx my).2) 0 ≤ 255 :=
        getD_le_of_forall (hb ds rfl l hd)
      have h1 : ((l.getD (depthIndex ds.width (depthPixel w h ds.width ds.height mx my).1
          (depthPixel w h ds.width ds.height mx my).2) 0 : ℕ) : ℚ) ≤ 255 := by
        exact_mod_cast hbyte
      have hx1 : ((l.getD (depthIndex ds.width (depthPixel w h ds.width ds.height mx my).1
          (depthPixel w h ds.width ds.height mx my).2) 0 : ℕ) : ℚ) / 255 ≤ 1 :=
        (div_le_one (by norm_num)).mpr h1
      have hx0 : (0 : ℚ) ≤ ((l.getD (depthIndex ds.width
          (depthPixel w h ds.width ds.height mx my).1
          (depthPixel w h ds.width ds.height mx my).2) 0 : ℕ) : ℚ) / 255 := by positivity
      constructor <;> linarith

/-- C9: a particle's `depthValue` is written only when it is spawned onto
a mask pixel, where it becomes the sampled closeness (a value in [0,1]
for byte-valued depth buffers); a fallback respawn and an ordinary
per-tick update without respawn leave it unchanged. -/
theorem c9_depth_value_frame (M : MathLib) (cfg : Config) (vw vh time : ℚ)
    (seg : Option Mask) (dep : Option Depth) (rnd : RespawnRand) (now : ℚ)
    (poses : List Pose) (videoW videoH : ℚ) (b : Bubble) (mx my w h : ℕ)
    (hexp : lifespanExpired cfg time (moveStep M cfg time b) = false)
    (hy : b.posY + cfg.bubbleSpeed * b.velocityMultiplier ≤ vh / 2 + 5) :
    (respawnSample cfg seg rnd.draws = none →
      (respawnBubble cfg vw vh seg dep rnd now b).depth = b.depth) ∧
    (respawnSample cfg seg rnd.draws = some (mx, my, w, h) →
      (respawnBubble cfg vw vh seg dep rnd now b).depth = depthCloseness dep mx my w h) ∧
    (depthBytesLe dep →
      0 ≤ depthCloseness dep mx my w h ∧ depthCloseness dep mx my w h ≤ 1) ∧
    (animateBubble M cfg vw vh time seg dep rnd now poses videoW videoH b).depth = b.depth := by
  refine ⟨?_, ?_, ?_, ?_⟩
  · intro hn
    exact (respawnBubble_posXY_of_none cfg vw vh now seg dep rnd b hn).2.2
  · intro hs
    exact (respawnBubble_posXY_of_some cfg vw vh now seg dep rnd b mx my w h hs).2.2
  · intro hb
    exact depthCloseness_range dep mx my w h hb
  · have hdepthfm : (fadeStep cfg time (moveStep M cfg time b)).depth = b.depth :=
      ((fadeStep_fields cfg time (moveStep M cfg time b)).2.2.2.2.2.2.1).trans
        (moveStep_fields M cfg time b).2.2.2.2.1
    have hpos : (fadeStep cfg time (moveStep M cfg time b)).posY =
        b.posY + cfg.bubbleSpeed * b.velocityMultiplier :=
      ((fadeStep_fields cfg time (moveStep M cfg time b)).2.1).trans
        (moveStep_fields M cfg time b).1
    unfold animateBubble
    dsimp only
    rw [if_neg (by rw [hexp]; simp : ¬ lifespanExpired cfg time (moveStep M cfg time b) = true)]
    have hbif : (if vh / 2 + 5 < (fadeStep cfg time (moveStep M cfg time b)).posY
        then respawnBubble cfg vw vh seg dep rnd now (fadeStep cfg time (moveStep M cfg time b))
        else fadeStep cfg time (moveStep M cfg time b)) =
          fadeStep cfg time (moveStep M cfg time b) := by
      rw [if_neg (by rw [hpos]; exact not_lt.mpr hy)]
    rw [hbif]
    split_ifs with h3
    · exact ((posesFoldl_persist M cfg vw vh videoW videoH _ poses).2.2.2.1).trans hdepthfm
    · exact hdepthfm

/-- Witness for C9 at a concrete input. -/
theorem c9_depth_value_frame_witness :
    (respawnSample cfgW none rndW.draws = none →
      (respawnBubble cfgW 16 9 none none rndW 0 bW).depth = bW.depth) ∧
    (respawnSample cfgW none rndW.draws = some (0, 0, 1, 1) →
      (respawnBubble cfgW 16 9 none none rndW 0 bW).depth = depthCloseness none 0 0 1 1) ∧
    (depthBytesLe none →
      0 ≤ depthCloseness none 0 0 1 1 ∧ depthCloseness none 0 0 1 1 ≤ 1) ∧
    (animateBubble mathW cfgW 16 9 0 none none rndW 0 [] 640 480 bW).depth = bW.depth :=
  c9_depth_value_frame mathW cfgW 16 9 0 none none rndW 0 [] 640 480 bW 0 0 1 1
    (by norm_num [lifespanExpired, moveStep, cfgW, bW]) (by norm_num [cfgW, bW])

/-- C6: the lifespan-respawn test compares the particle's age against
exactly `bubbleLifespan * lifespanMultiplier`; with a global lifespan of
0 it never fires; and `lifespanMultiplier` stays in `[1/2, 3/2)` through
creation, respawn, and any full tick (given random draws in `[0,1)`). -/
theorem c6_lifespan (M : MathLib) (cfg : Config) (vw vh time now piv baseTime videoW videoH : ℚ)
    (i : ℕ) (seg : Option Mask) (dep : Option Depth) (poses : List Pose)
    (b : Bubble) (r : CreateRand) (rnd : RespawnRand)
    (hr0 : 0 ≤ r.rLifespan) (hr1 : r.rLifespan < 1)
    (hrnd0 : 0 ≤ rnd.lifespan) (hrnd1 : rnd.lifespan < 1)
    (hb0 : 1/2 ≤ b.lifespanMultiplier) (hb1 : b.lifespanMultiplier < 3/2) :
    (lifespanExpired cfg time b = true ↔
      0 < cfg.bubbleLifespan ∧
        cfg.bubbleLifespan * b.lifespanMultiplier < time - b.birthTime) ∧
    (cfg.bubbleLifespan = 0 → lifespanExpired cfg time b = false) ∧
    (1/2 ≤ (mkBubble cfg vw vh piv baseTime i r).lifespanMultiplier ∧
      (mkBubble cfg vw vh piv baseTime i r).lifespanMultiplier < 3/2) ∧
    (1/2 ≤ (respawnBubble cfg vw vh seg dep rnd now b).lifespanMultiplier ∧
      (respawnBubble cfg vw vh seg dep rnd now b).lifespanMultiplier < 3/2) ∧
    (1/2 ≤ (animateBubble M cfg vw vh time seg dep rnd now poses videoW videoH b).lifespanMultiplier ∧
      (animateBubble M cfg vw vh time seg dep rnd now poses
        videoW videoH b).lifespanMultiplier < 3/2) := by
  have hrr : ∀ bb : Bubble,
      (respawnBubble cfg vw vh seg dep rnd now bb).lifespanMultiplier = 1/2 + rnd.lifespan :=
    fun bb => (respawnBubble_post cfg vw vh now seg dep rnd bb).2.2.1
  have hfm : (fadeStep cfg time (moveStep M cfg time b)).lifespanMultiplier =
      b.lifespanMultiplier :=
    ((fadeStep_fields cfg time (moveStep M cfg time b)).2.2.2.2.2.1).trans
      (moveStep_fields M cfg time b).2.2.1
  refine ⟨?_, ?_, ?_, ?_, ?_⟩
  · unfold lifespanExpired
    simp [Bool.and_eq_true, decide_eq_true_eq]
  · intro h
    unfold lifespanExpired
    rw [h]
    have h0 : ¬ ((0 : ℚ) < 0) := lt_irrefl 0
    rw [decide_eq_false h0, Bool.false_and]
  · constructor <;>
      · have hm : (mkBubble cfg vw vh piv baseTime i r).lifespanMultiplier =
          1/2 + r.rLifespan := rfl
        rw [hm]
        linarith
  · constructor <;>
      · rw [hrr b]
        linarith
  · unfold animateBubble
    dsimp only
    split_ifs with h1 h2 h3 h4
    · constructor <;> rw [hrr _] <;> linarith
    · have hp := (posesFoldl_persist M cfg vw vh videoW videoH
        (respawnBubble cfg vw vh seg dep rnd now
          (fadeStep cfg time (moveStep M cfg time b))) poses).2.1
      constructor <;> rw [hp, hrr _] <;> linarith
    · have hp := (posesFoldl_persist M cfg vw vh videoW videoH
        (fadeStep cfg time (moveStep M cfg time b)) poses).2.1
      constructor <;> rw [hp, hfm] <;> linarith
    · constructor <;> rw [hrr _] <;> linarith
    · constructor <;> rw [hfm] <;> linarith

/-- Concrete creation randomness used by the C6 witness. -/
def crW : CreateRand := ⟨0, 0, 0, 0, 0, 0, 0, 0, 0, 0⟩

/-- Witness for C6 at a concrete input. -/
theorem c6_lifespan_witness :
    (lifespanExpired cfgW 0 bW = true ↔
      0 < cfgW.bubbleLifespan ∧
        cfgW.bubbleLifespan * bW.lifespanMultiplier < 0 - bW.birthTime) ∧
    (cfgW.bubbleLifespan = 0 → lifespanExpired cfgW 0 bW = false) ∧
    (1/2 ≤ (mkBubble cfgW 16 9 (314159/100000) 0 0 crW).lifespanMultiplier ∧
      (mkBubble cfgW 16 9 (314159/100000) 0 0 crW).lifespanMultiplier < 3/2) ∧
    (1/2 ≤ (respawnBubble cfgW 16 9 none none rndW 0 bW).lifespanMultiplier ∧
      (respawnBubble cfgW 16 9 none none rndW 0 bW).lifespanMultiplier < 3/2) ∧
    (1/2 ≤ (animateBubble mathW cfgW 16 9 0 none none rndW 0 [] 640 480 bW).lifespanMultiplier ∧
      (animateBubble mathW cfgW 16 9 0 none none rndW 0 [] 640
        480 bW).lifespanMultiplier < 3/2) :=
  c6_lifespan mathW cfgW 16 9 0 0 (314159/100000) 0 640 480 0 none none [] bW crW rndW
    (by norm_num [crW]) (by norm_num [crW]) (by norm_num [rndW]) (by norm_num [rndW])
    (by norm_num [bW]) (by norm_num [bW])

/-! Characterisation of the mask sampling loop. -/

lemma sampleMask_eq_none_iff (w h : ℕ) (data : List ℕ) (invert : Bool)
    (ds : List (ℚ × ℚ)) :
    sampleMask w h data invert ds = none ↔
      ∀ rxy ∈ ds, acceptDraw w h data invert rxy = false := by
  induction ds with
  | nil => simp [sampleMask]
  | cons rxy rest ih =>
    by_cases hacc : acceptDraw w h data invert rxy = true
    · simp [sampleMask, hacc]
    · have hacc' : acceptDraw w h data invert rxy = false := by
        cases hb : acceptDraw w h data invert rxy
        · rfl
        · exact absurd hb hacc
      simp [sampleMask, hacc', ih]

lemma sampleMask_eq_some_iff (w h : ℕ) (data : List ℕ) (invert : Bool)
    (ds : List (ℚ × ℚ)) (p : ℕ × ℕ) :
    sampleMask w h data invert ds = some p ↔
      ∃ l1 rxy l2, ds = l1 ++ rxy :: l2 ∧
        (∀ y ∈ l1, acceptDraw w h data invert y = false) ∧
        acceptDraw w h data invert rxy = true ∧
        p = pixelOfDraw w h rxy.1 rxy.2 := by
  induction ds with
  | nil =>
    simp only [sampleMask]
    constructor
    · intro hl
      exact absurd hl (by simp)
    · rintro ⟨l1, rxy, l2, hds, -, -, -⟩
      exact absurd hds (by simp)
  | cons a rest ih =>
    by_cases hacc : acceptDraw w h data invert a = true
    · simp only [sampleMask, if_pos hacc]
      constructor
      · intro hl
        refine ⟨[], a, rest, rfl, by simp, hacc, ?_⟩
        exact (Option.some.injEq _ _ ▸ hl).symm
      · rintro ⟨l1, rxy, l2, hds, hrej, hy, hp⟩
        cases l1 with
        | nil =>
          simp only [List.nil_append, List.cons.injEq] at hds
          obtain ⟨h1, h2⟩ := hds
          rw [hp, ← h1]
        | cons c l1t =>
          simp only [List.cons_append, List.cons.injEq] at hds
          obtain ⟨h1, h2⟩ := hds
          have hcr : acceptDraw w h data invert a = false := by
            rw [h1]
            exact hrej c (List.mem_cons_self c l1t)
          rw [hcr] at hacc
          exact absurd hacc (by simp)
    · have hacc' : acceptDraw w h data invert a = false := by
        cases hb : acceptDraw w h data invert a
        · rfl
        · exact absurd hb hacc
      simp only [sampleMask, if_neg hacc]
      rw [ih]
      constructor
      · rintro ⟨l1, rxy, l2, hds, hrej, hy, hp⟩
        refine ⟨a :: l1, rxy, l2, by rw [hds, List.cons_append], ?_, hy, hp⟩
        intro y hyl
        rcases List.mem_cons.mp hyl with hya | hyl1
        · rw [hya]; exact hacc'
        · exact hrej y hyl1
      · rintro ⟨l1, rxy, l2, hds, hrej, hy, hp⟩
        cases l1 with
        | nil =>
          simp only [List.nil_append, List.cons.injEq] at hds
          obtain ⟨h1, h2⟩ := hds
          rw [← h1] at hy
          rw [hy] at hacc'
          exact absurd hacc' (by simp)
        | cons c l1t =>
          simp only [List.cons_append, List.cons.injEq] at hds
          obtain ⟨h1, h2⟩ := hds
          refine ⟨l1t, rxy, l2, h2, ?_, hy, hp⟩
          intro y hyl
          exact hrej y (List.mem_cons_of_mem c hyl)

lemma getD_replicate_of_lt {n i a : ℕ} (h : i < n) :
    (List.replicate n a).getD i 0 = a := by
  rw [List.getD_eq_getElem _ _ (by simpa using h)]
  simp

/-- C1: the mask sampler walks at most 200 independent draws, mapping
each to its floored pixel, classifying it as person iff the alpha
channel exceeds 127, accepting iff `invert ? !isPerson : isPerson`, and
returns the first accepted pixel (none when all are rejected); for an
all-alpha-255 mask with `invert = false` the very first draw is
accepted, so the respawn places the particle at the mask-derived
position and never takes the fallback branch. -/
theorem c1_mask_sampler (cfg : Config) (vw vh now : ℚ) (m : Mask) (d : List ℕ)
    (dep : Option Depth) (rnd : RespawnRand) (b : Bubble) (rx ry : ℚ) (rest : List (ℚ × ℚ))
    (hdata : m.data = some d)
    (hspawn : cfg.spawnOnBody = true) (hinv : cfg.invertMask = false)
    (hw : 1 ≤ m.width) (hh : 1 ≤ m.height)
    (h255 : ∀ mx my : ℕ, mx < m.width → my < m.height → alphaAt d m.width mx my = 255)
    (hdraws : rnd.draws = (rx, ry) :: rest)
    (hrx0 : 0 ≤ rx) (hrx1 : rx < 1) (hry0 : 0 ≤ ry) (hry1 : ry < 1) :
    (∀ ds : List (ℚ × ℚ), sampleMask m.width m.height d cfg.invertMask ds = none ↔
      ∀ rxy ∈ ds, acceptDraw m.width m.height d cfg.invertMask rxy = false) ∧
    (∀ (ds : List (ℚ × ℚ)) (p : ℕ × ℕ),
      sampleMask m.width m.height d cfg.invertMask ds = some p ↔
      ∃ l1 rxy l2, ds = l1 ++ rxy :: l2 ∧
        (∀ y ∈ l1, acceptDraw m.width m.height d cfg.invertMask y = false) ∧
        acceptDraw m.width m.height d cfg.invertMask rxy = true ∧
        p = pixelOfDraw m.width m.height rxy.1 rxy.2) ∧
    (∀ (seg2 : Option Mask) (ds : List (ℚ × ℚ)),
      respawnSample cfg seg2 ds = respawnSample cfg seg2 (ds.take 200)) ∧
    respawnSample cfg (some m) rnd.draws =
      some ((pixelOfDraw m.width m.height rx ry).1, (pixelOfDraw m.width m.height rx ry).2,
        m.width, m.height) ∧
    (respawnBubble cfg vw vh (some m) dep rnd now b).posX =
      ((1 - ((pixelOfDraw m.width m.height rx ry).1 : ℚ) / (m.width : ℚ)) - 1/2) * vw ∧
    (respawnBubble cfg vw vh (some m) dep rnd now b).posY =
      ((1 - ((pixelOfDraw m.width m.height rx ry).2 : ℚ) / (m.height : ℚ)) - 1/2) * vh := by
  obtain ⟨hmx, hmy⟩ := pixelOfDraw_lt m.width m.height rx ry hw hh hrx0 hrx1 hry0 hry1
  have haccept : acceptDraw m.width m.height d cfg.invertMask (rx, ry) = true := by
    unfold acceptDraw isPerson
    rw [hinv]
    simp only [Bool.if_false_right, Bool.if_true_left]
    rw [h255 _ _ hmx hmy]
    norm_num
  have hsome : respawnSample cfg (some m) rnd.draws =
      some ((pixelOfDraw m.width m.height rx ry).1, (pixelOfDraw m.width m.height rx ry).2,
        m.width, m.height) := by
    unfold respawnSample
    dsimp only
    rw [hspawn, if_pos rfl, hdata]
    dsimp only
    rw [hdraws, List.take_succ_cons]
    rw [sampleMask, if_pos haccept]
    rfl
  refine ⟨?_, ?_, ?_, hsome, ?_, ?_⟩
  · exact sampleMask_eq_none_iff m.width m.height d cfg.invertMask
  · exact sampleMask_eq_some_iff m.width m.height d cfg.invertMask
  · intro seg2 ds
    unfold respawnSample
    cases seg2 with
    | none => rfl
    | some m2 =>
      dsimp only
      cases hd2 : m2.data with
      | none => rfl
      | some d2 =>
        rw [List.take_take]
        norm_num
  · exact (respawnBubble_posXY_of_some cfg vw vh now (some m) dep rnd b _ _ _ _ hsome).1
  · exact (respawnBubble_posXY_of_some cfg vw vh now (some m) dep rnd b _ _ _ _ hsome).2.1

/-- Concrete all-alpha-255 mask used by the C1 witness. -/
def maskW : Mask := ⟨8, 8, some (List.replicate 256 255)⟩

/-- Concrete respawn randomness with one draw, used by the C1 witness. -/
def rndW1 : RespawnRand := ⟨[(0, 0)], 0, 0, 0⟩

/-- Witness for C1 at a concrete input. -/
theorem c1_mask_sampler_witness :
    (∀ ds : List (ℚ × ℚ),
      sampleMask maskW.width maskW.height (List.replicate 256 255) cfgW.invertMask ds = none ↔
      ∀ rxy ∈ ds,
        acceptDraw maskW.width maskW.height (List.replicate 256 255) cfgW.invertMask rxy =
          false) ∧
    (∀ (ds : List (ℚ × ℚ)) (p : ℕ × ℕ),
      sampleMask maskW.width maskW.height (List.replicate 256 255) cfgW.invertMask ds = some p ↔
      ∃ l1 rxy l2, ds = l1 ++ rxy :: l2 ∧
        (∀ y ∈ l1,
          acceptDraw maskW.width maskW.height (List.replicate 256 255) cfgW.invertMask y =
            false) ∧
        acceptDraw maskW.width maskW.height (List.replicate 256 255) cfgW.invertMask rxy =
          true ∧
        p = pixelOfDraw maskW.width maskW.height rxy.1 rxy.2) ∧
    (∀ (seg2 : Option Mask) (ds : List (ℚ × ℚ)),
      respawnSample cfgW seg2 ds = respawnSample cfgW seg2 (ds.take 200)) ∧
    respawnSample cfgW (some maskW) rndW1.draws =
      some ((pixelOfDraw maskW.width maskW.height 0 0).1,
        (pixelOfDraw maskW.width maskW.height 0 0).2, maskW.width, maskW.height) ∧
    (respawnBubble cfgW 16 9 (some maskW) none rndW1 0 bW).posX =
      ((1 - ((pixelOfDraw maskW.width maskW.height 0 0).1 : ℚ) / (maskW.width : ℚ)) - 1/2) * 16 ∧
    (respawnBubble cfgW 16 9 (some maskW) none rndW1 0 bW).posY =
      ((1 - ((pixelOfDraw maskW.width maskW.height 0 0).2 : ℚ) / (maskW.height : ℚ)) - 1/2) * 9 :=
  c1_mask_sampler cfgW 16 9 0 maskW (List.replicate 256 255) none rndW1 bW 0 0 []
    rfl rfl rfl (by norm_num [maskW]) (by norm_num [maskW])
    (by
      intro mx my hmx hmy
      simp only [maskW] at hmx hmy
      unfold alphaAt maskIndex
      exact getD_replicate_of_lt (by simp only [maskW]; omega))
    rfl (by norm_num) (by norm_num) (by norm_num) (by norm_num)

/-- C5: a keypoint below confidence 1/5 causes no change at all; at
distance `d ≥ interactionRadius` (including exactly the radius) the
position is unchanged and the scale relaxes 10% of the remaining
difference toward the initial scale; at `d < interactionRadius` the
particle is displaced directly away from the target with magnitude
`((R - d)/R) * 0.8` and its scale is set to
`initialScale * (1 + 0.5*(R - d)/R)`, at most 1.5 times the initial
scale.  The host math library is constrained by the hypotheses tying
`sqrt`, `cos ∘ atan2` and `sin ∘ atan2` to their exact values at the
evaluated point. -/
theorem c5_keypoint_interaction (M : MathLib) (cfg : Config) (vw vh videoW videoH : ℚ)
    (b : Bubble) (kp : Keypoint) (dx dy d : ℚ)
    (hdx : dx = b.posX - ((1 - kp.x / videoW) - 1/2) * vw)
    (hdy : dy = b.posY - ((1 - kp.y / videoH) - 1/2) * vh)
    (hsq : M.sqrt (dx * dx + dy * dy) = d)
    (hR : 0 < cfg.interactionRadius) :
    (kp.confidence < 1/5 → interactWithKeypoint M cfg vw vh videoW videoH b kp = b) ∧
    (1/5 ≤ kp.confidence → cfg.interactionRadius ≤ d →
      (interactWithKeypoint M cfg vw vh videoW videoH b kp).posX = b.posX ∧
      (interactWithKeypoint M cfg vw vh videoW videoH b kp).posY = b.posY ∧
      (interactWithKeypoint M cfg vw vh videoW videoH b kp).scale =
        b.scale + (b.initialScale - b.scale) * (1/10)) ∧
    (1/5 ≤ kp.confidence → d < cfg.interactionRadius → 0 < d →
      d * d = dx * dx + dy * dy →
      M.cos (M.atan2 dy dx) * d = dx →
      M.sin (M.atan2 dy dx) * d = dy →
      ((interactWithKeypoint M cfg vw vh videoW videoH b kp).posX - b.posX) * d =
        dx * ((cfg.interactionRadius - d) / cfg.interactionRadius) * (4/5) ∧
      ((interactWithKeypoint M cfg vw vh videoW videoH b kp).posY - b.posY) * d =
        dy * ((cfg.interactionRadius - d) / cfg.interactionRadius) * (4/5) ∧
      ((interactWithKeypoint M cfg vw vh videoW videoH b kp).posX - b.posX) ^ 2 +
        ((interactWithKeypoint M cfg vw vh videoW videoH b kp).posY - b.posY) ^ 2 =
        (((cfg.interactionRadius - d) / cfg.interactionRadius) * (4/5)) ^ 2 ∧
      (interactWithKeypoint M cfg vw vh videoW videoH b kp).scale =
        b.initialScale * (1 + ((cfg.interactionRadius - d) / cfg.interactionRadius) * (1/2)) ∧
      (0 ≤ b.initialScale →
        (interactWithKeypoint M cfg vw vh videoW videoH b kp).scale ≤
          (3/2) * b.initialScale)) := by
  refine ⟨?_, ?_, ?_⟩
  · intro h
    unfold interactWithKeypoint
    rw [if_pos h]
  · intro hconf hge
    unfold interactWithKeypoint
    rw [if_neg (not_lt.mpr hconf)]
    dsimp only
    rw [← hdx, ← hdy, hsq, if_neg (not_lt.mpr hge)]
    exact ⟨rfl, rfl, rfl⟩
  · intro hconf hlt hdpos hdd hcos hsin
    have key : interactWithKeypoint M cfg vw vh videoW videoH b kp =
        { b with
          posX := b.posX + M.cos (M.atan2 dy dx) *
            ((cfg.interactionRadius - d) / cfg.interactionRadius) * (4/5)
          posY := b.posY + M.sin (M.atan2 dy dx) *
            ((cfg.interactionRadius - d) / cfg.interactionRadius) * (4/5)
          scale := b.initialScale *
            (1 + ((cfg.interactionRadius - d) / cfg.interactionRadius) * (1/2)) } := by
      unfold interactWithKeypoint
      rw [if_neg (not_lt.mpr hconf)]
      dsimp only
      rw [← hdx, ← hdy, hsq, if_pos hlt]
    rw [key]
    dsimp only
    have hcs : M.cos (M.atan2 dy dx) ^ 2 + M.sin (M.atan2 dy dx) ^ 2 = 1 := by
      have h1 : (M.cos (M.atan2 dy dx) * d) ^ 2 + (M.sin (M.atan2 dy dx) * d) ^ 2 = d ^ 2 := by
        rw [hcos, hsin]
        linear_combination (-1 : ℚ) * hdd
      have hd2 : d ^ 2 ≠ 0 := pow_ne_zero 2 (ne_of_gt hdpos)
      have h2 : (M.cos (M.atan2 dy dx) ^ 2 + M.sin (M.atan2 dy dx) ^ 2) * d ^ 2 =
          1 * d ^ 2 := by
        linear_combination h1
      exact mul_right_cancel₀ hd2 h2
    refine ⟨?_, ?_, ?_, rfl, ?_⟩
    · linear_combination ((cfg.interactionRadius - d) / cfg.interactionRadius) * (4/5) * hcos
    · linear_combination ((cfg.interactionRadius - d) / cfg.interactionRadius) * (4/5) * hsin
    · linear_combination
        (((cfg.interactionRadius - d) / cfg.interactionRadius) * (4/5)) ^ 2 * hcs
    · intro hinit
      have hF1 : (cfg.interactionRadius - d) / cfg.interactionRadius ≤ 1 := by
        rw [div_le_one hR]
        linarith
      nlinarith [hF1, hinit]

/-- Concrete configuration with interaction radius 6 for the C5 witness. -/
def cfg5 : Config := ⟨400, 5/2, 3/5, 6, true, false, 8⟩

/-- Concrete particle at position (3, 4) for the C5 witness. -/
def bW5 : Bubble := ⟨3, 4, 0, 1, 1/2, 0, 1, 0, 0, 0, 0, 1, 1/2⟩

/-- Math-library oracle matching the exact values at the C5 witness
point: distance 5, direction cosine 3/5, direction sine 4/5. -/
def mathW5 : MathLib := ⟨fun _ => 4/5, fun _ => 3/5, fun _ => 5, fun _ _ => 0⟩

/-- Concrete keypoint mapping to the world origin for the C5 witness. -/
def kpW : Keypoint := ⟨320, 240, 1⟩

/-- Witness for C5 at a concrete input. -/
theorem c5_keypoint_interaction_witness :
    (kpW.confidence < 1/5 → interactWithKeypoint mathW5 cfg5 16 9 640 480 bW5 kpW = bW5) ∧
    (1/5 ≤ kpW.confidence → cfg5.interactionRadius ≤ 5 →
      (interactWithKeypoint mathW5 cfg5 16 9 640 480 bW5 kpW).posX = bW5.posX ∧
      (interactWithKeypoint mathW5 cfg5 16 9 640 480 bW5 kpW).posY = bW5.posY ∧
      (interactWithKeypoint mathW5 cfg5 16 9 640 480 bW5 kpW).scale =
        bW5.scale + (bW5.initialScale - bW5.scale) * (1/10)) ∧
    (1/5 ≤ kpW.confidence → (5 : ℚ) < cfg5.interactionRadius → (0 : ℚ) < 5 →
      (5 : ℚ) * 5 = 3 * 3 + 4 * 4 →
      mathW5.cos (mathW5.atan2 4 3) * 5 = 3 →
      mathW5.sin (mathW5.atan2 4 3) * 5 = 4 →
      ((interactWithKeypoint mathW5 cfg5 16 9 640 480 bW5 kpW).posX - bW5.posX) * 5 =
        3 * ((cfg5.interactionRadius - 5) / cfg5.interactionRadius) * (4/5) ∧
      ((interactWithKeypoint mathW5 cfg5 16 9 640 480 bW5 kpW).posY - bW5.posY) * 5 =
        4 * ((cfg5.interactionRadius - 5) / cfg5.interactionRadius) * (4/5) ∧
      ((interactWithKeypoint mathW5 cfg5 16 9 640 480 bW5 kpW).posX - bW5.posX) ^ 2 +
        ((interactWithKeypoint mathW5 cfg5 16 9 640 480 bW5 kpW).posY - bW5.posY) ^ 2 =
        (((cfg5.interactionRadius - 5) / cfg5.interactionRadius) * (4/5)) ^ 2 ∧
      (interactWithKeypoint mathW5 cfg5 16 9 640 480 bW5 kpW).scale =
        bW5.initialScale * (1 + ((cfg5.interactionRadius - 5) / cfg5.interactionRadius) * (1/2)) ∧
      (0 ≤ bW5.initialScale →
        (interactWithKeypoint mathW5 cfg5 16 9 640 480 bW5 kpW).scale ≤
          (3/2) * bW5.initialScale)) :=
  c5_keypoint_interaction mathW5 cfg5 16 9 640 480 bW5 kpW 3 4 5
    (by norm_num [bW5, kpW]) (by norm_num [bW5, kpW]) (by norm_num [mathW5])
    (by norm_num [cfg5])

end ProtoBubbles
